import Mathlib

/-!
Shallow embedding of the `geo` / `geo-types` Vincenty length pipeline:
the geometric value types (`Coordinate`, `Point`, `Line`, `LineString`,
`MultiLineString`), the segment decomposition `LineString.lines`
(`geo-types/src/line_string.rs`), the derived quantities `Line.slope` and
`Line.determinant` (`geo-types/src/line.rs`), and the `VincentyLength`
aggregator implementations (`geo/src/algorithm/vincenty_length.rs`).

The point-to-point Vincenty solver (`vincenty_distance`) lives outside the
inspected sources, so every aggregator definition is parameterised by an
arbitrary solver function `vd : Point α → Point α → Except
FailedToConvergeError α`; the aggregator theorems quantify over `vd`, hence
they hold for the real solver in particular.  The numeric parameter `T`
(`T : Float + FromPrimitive` in the source) is modelled by a type parameter
`α` carrying exactly the algebraic structure each operation uses.
-/

set_option autoImplicit false

/-- Modelled from the spec: a `Coordinate` is a pair of scalar components
`x`, `y` of a single numeric type (the struct definition is outside the
inspected sources; its `.x`/`.y` field accesses appear throughout
`line.rs`). -/
structure Coordinate (α : Type) where
  x : α
  y : α
  deriving DecidableEq

instance {α : Type} [Inhabited α] : Inhabited (Coordinate α) :=
  ⟨⟨default, default⟩⟩

/-- Modelled from the spec: `Point` is a wrapper identifying a `Coordinate`
as a geographic location; `line.rs` constructs it as `Point(self.start)`. -/
structure Point (α : Type) where
  c : Coordinate α
  deriving DecidableEq

/-- A line segment made up of exactly two coordinates
(`geo-types/src/line.rs`).  The Rust field `end` is a Lean keyword, so it is
rendered `end_`. -/
structure Line (α : Type) where
  start : Coordinate α
  end_ : Coordinate α
  deriving DecidableEq

/-- An ordered collection of coordinates:
`pub struct LineString<T>(pub Vec<Coordinate<T>>)`
(`geo-types/src/line_string.rs`). -/
structure LineString (α : Type) where
  coords : List (Coordinate α)
  deriving DecidableEq

/-- Modelled from the spec: a `MultiLineString` (MultiPath) is an ordered
collection of `LineString`s; its struct definition is outside the inspected
sources, and the aggregator iterates its field `self.0` in order. -/
structure MultiLineString (α : Type) where
  paths : List (LineString α)
  deriving DecidableEq

/-- Modelled from the spec: the solver's typed convergence failure
(`FailedToConvergeError` of `algorithm::vincenty_distance`, whose source is
outside the inspected files) is a value-only marker carrying no payload. -/
structure FailedToConvergeError where
  deriving DecidableEq

/-- `Line::new` (`line.rs`). -/
def Line.new {α : Type} (s e : Coordinate α) : Line α :=
  ⟨s, e⟩

/-- `Line::dx`: `self.end.x - self.start.x` (`line.rs`). -/
def Line.dx {α : Type} [Sub α] (l : Line α) : α :=
  l.end_.x - l.start.x

/-- `Line::dy`: `self.end.y - self.start.y` (`line.rs`). -/
def Line.dy {α : Type} [Sub α] (l : Line α) : α :=
  l.end_.y - l.start.y

/-- `Line::slope`: `self.dy() / self.dx()` (`line.rs`). -/
def Line.slope {α : Type} [Sub α] [Div α] (l : Line α) : α :=
  l.dy / l.dx

/-- `Line::determinant`:
`self.start.x * self.end.y - self.start.y * self.end.x` (`line.rs`). -/
def Line.determinant {α : Type} [Sub α] [Mul α] (l : Line α) : α :=
  l.start.x * l.end_.y - l.start.y * l.end_.x

/-- `Line::start_point`: `Point(self.start)` (`line.rs`). -/
def Line.start_point {α : Type} (l : Line α) : Point α :=
  ⟨l.start⟩

/-- `Line::end_point`: `Point(self.end)` (`line.rs`). -/
def Line.end_point {α : Type} (l : Line α) : Point α :=
  ⟨l.end_⟩

/-- `Line::points`: `(self.start_point(), self.end_point())` (`line.rs`);
the aggregator calls it under the name `to_points`. -/
def Line.points {α : Type} (l : Line α) : Point α × Point α :=
  (l.start_point, l.end_point)

/-- `slice::windows(2)` as used by `LineString::lines`: every contiguous
length-2 window of the list, in order; fewer than two elements yield no
windows. -/
def windows2 {β : Type} : List β → List (List β)
  | a :: b :: rest => [a, b] :: windows2 (b :: rest)
  | _ => []

/-- `slice::get_unchecked`, modelled totally: out-of-bounds access returns
an arbitrary default instead of being undefined behaviour. -/
def get_unchecked {β : Type} [Inhabited β] (w : List β) (i : Nat) : β :=
  w.getD i default

/-- `LineString::lines` (`line_string.rs`):
`self.0.windows(2).map(|w| Line::new(*w.get_unchecked(0), *w.get_unchecked(1)))`. -/
def LineString.lines {α : Type} [Inhabited α] (ls : LineString α) :
    List (Line α) :=
  (windows2 ls.coords).map (fun w => Line.new (get_unchecked w 0) (get_unchecked w 1))

/-- `From<Vec<IC>> for LineString` (`line_string.rs`):
`LineString(v.into_iter().map(|c| c.into()).collect())`, with the
`Into<Coordinate<T>>` conversion modelled as an arbitrary function `f`. -/
def LineString.from_vec {α β : Type} (f : β → Coordinate α) (v : List β) :
    LineString α :=
  ⟨v.map f⟩

/-- `FromIterator<IC> for LineString` (`line_string.rs`):
`LineString(iter.into_iter().map(|c| c.into()).collect())`. -/
def LineString.from_iter {α β : Type} (f : β → Coordinate α) (v : List β) :
    LineString α :=
  ⟨v.map f⟩

/-- `IntoIterator for LineString` (`line_string.rs`): `self.0.into_iter()`. -/
def LineString.into_iter {α : Type} (ls : LineString α) :
    List (Coordinate α) :=
  ls.coords

/-- `VincentyLength for Line` (`vincenty_length.rs`):
`let (start, end) = self.to_points(); start.vincenty_distance(&end)`,
with the solver passed as `vd`. -/
def Line.vincenty_length {α : Type}
    (vd : Point α → Point α → Except FailedToConvergeError α) (l : Line α) :
    Except FailedToConvergeError α :=
  let p := l.points
  vd p.1 p.2

/-- The loop of `VincentyLength for LineString`: fold the segment list,
adding each converged distance to the accumulator and returning the first
convergence failure unchanged. -/
def vlAux {α : Type} [Add α]
    (vd : Point α → Point α → Except FailedToConvergeError α) (acc : α) :
    List (Line α) → Except FailedToConvergeError α
  | [] => Except.ok acc
  | l :: rest =>
    match Line.vincenty_length vd l with
    | Except.error e => Except.error e
    | Except.ok d => vlAux vd (acc + d) rest

/-- `VincentyLength for LineString` (`vincenty_length.rs`, lines 20-30).
The source text reads `length = length + line.vincenty_length();` without
the `?` operator; as written that adds a bare `Result` to the scalar
accumulator and does not typecheck (`T: Float` has no
`Add<Result<T, FailedToConvergeError>>`), so it cannot compile, let alone
propagate a failure.  This definition follows the only well-typed
completion consistent with the function's signature and with the sibling
`MultiLineString` impl directly below it, which uses `?`: each per-segment
failure is propagated by early return. -/
def LineString.vincenty_length {α : Type} [Add α] [Zero α] [Inhabited α]
    (vd : Point α → Point α → Except FailedToConvergeError α)
    (ls : LineString α) : Except FailedToConvergeError α :=
  vlAux vd 0 ls.lines

/-- The loop of `VincentyLength for MultiLineString`:
`length = length + line_string.vincenty_length()?` over `&self.0`. -/
def mlAux {α : Type} [Add α] [Zero α] [Inhabited α]
    (vd : Point α → Point α → Except FailedToConvergeError α) (acc : α) :
    List (LineString α) → Except FailedToConvergeError α
  | [] => Except.ok acc
  | p :: rest =>
    match LineString.vincenty_length vd p with
    | Except.error e => Except.error e
    | Except.ok d => mlAux vd (acc + d) rest

/-- `VincentyLength for MultiLineString` (`vincenty_length.rs`, lines
32-42). -/
def MultiLineString.vincenty_length {α : Type} [Add α] [Zero α] [Inhabited α]
    (vd : Point α → Point α → Except FailedToConvergeError α)
    (m : MultiLineString α) : Except FailedToConvergeError α :=
  mlAux vd 0 m.paths

/-- A solver instance that fails on every pair of points, used to exhibit
concrete failure propagation. -/
def vdFailInt : Point ℤ → Point ℤ → Except FailedToConvergeError ℤ :=
  fun _ _ => Except.error ⟨⟩

/-- A solver instance that converges on every pair of points, returning a
value that depends on both endpoints. -/
def vdOkInt : Point ℤ → Point ℤ → Except FailedToConvergeError ℤ :=
  fun p q => Except.ok (p.c.x * q.c.x + p.c.y * q.c.y + 1)

/-- A solver instance that fails exactly on one designated segment: it
fails when the two endpoints have equal `x` components. -/
def vdMixedInt : Point ℤ → Point ℤ → Except FailedToConvergeError ℤ :=
  fun p q =>
    if p.c.x = q.c.x then Except.error ⟨⟩
    else Except.ok (p.c.x + q.c.x)

/-! ### Helper lemmas -/

theorem windows2_length {β : Type} (l : List β) :
    (windows2 l).length = l.length - 1 := by
  induction l with
  | nil => rfl
  | cons a t ih =>
    cases t with
    | nil => rfl
    | cons b t' =>
      simp only [windows2, List.length_cons] at ih ⊢
      omega

theorem windows2_mem_length {β : Type} (l : List β) (w : List β)
    (h : w ∈ windows2 l) : w.length = 2 := by
  induction l with
  | nil => simp [windows2] at h
  | cons a t ih =>
    cases t with
    | nil => simp [windows2] at h
    | cons b t' =>
      simp only [windows2, List.mem_cons] at h
      rcases h with rfl | h
      · rfl
      · exact ih h

theorem windows2_getElem {β : Type} (l : List β) :
    ∀ (i : Nat) (a b : β), l[i]? = some a → l[i + 1]? = some b →
      (windows2 l)[i]? = some [a, b] := by
  induction l with
  | nil => intro i a b ha _; simp at ha
  | cons x t ih =>
    intro i a b ha hb
    cases t with
    | nil =>
      rcases i with _ | j <;> simp at hb
    | cons y t' =>
      cases i with
      | zero =>
        simp only [List.getElem?_cons_zero, Option.some.injEq] at ha
        simp only [List.getElem?_cons_succ, List.getElem?_cons_zero,
          Option.some.injEq] at hb
        subst ha; subst hb
        simp [windows2]
      | succ j =>
        rw [List.getElem?_cons_succ] at ha
        rw [List.getElem?_cons_succ] at hb
        simpa only [windows2, List.getElem?_cons_succ] using ih j a b ha hb

theorem mlAux_forall2 {α : Type} [AddCommMonoid α] [Inhabited α]
    (vd : Point α → Point α → Except FailedToConvergeError α)
    (ps : List (LineString α)) (ds : List α)
    (h : List.Forall₂ (fun p d => LineString.vincenty_length vd p = Except.ok d) ps ds) :
    ∀ acc : α, mlAux vd acc ps = Except.ok (acc + ds.sum) := by
  induction h with
  | nil => intro acc; simp [mlAux]
  | cons h₁ h₂ ih =>
    intro acc
    simp only [mlAux, h₁]
    rw [ih]
    simp [List.sum_cons, add_assoc]

theorem mlAux_error {α : Type} [Add α] [Zero α] [Inhabited α]
    (vd : Point α → Point α → Except FailedToConvergeError α)
    (p : LineString α)
    (hfail : LineString.vincenty_length vd p = Except.error ⟨⟩) :
    ∀ (ps : List (LineString α)) (acc : α), p ∈ ps →
      mlAux vd acc ps = Except.error ⟨⟩ := by
  intro ps
  induction ps with
  | nil => intro acc hp; cases hp
  | cons q rest ih =>
    intro acc hp
    rcases List.mem_cons.mp hp with rfl | hmem
    · simp only [mlAux, hfail]
    · simp only [mlAux]
      cases hq : LineString.vincenty_length vd q with
      | error e => rfl
      | ok d => exact ih (acc + d) hmem

/-! ### Claim theorems -/

/-- C1: for every `LineString`, `vincenty_length` aborts on the first
segment whose solver call fails and propagates that failure; no partial sum
of the earlier converged segments is returned.  The source line
`length = length + line.vincenty_length();` omits the `?` operator and is
ill-typed Rust, so the claim is checked against the intended early-return
semantics (see `LineString.vincenty_length`): below, the first segment of
the path converges to distance 1, the second fails, and the whole path
computation returns the convergence failure rather than `Ok(1)`. -/
theorem lineString_vincenty_length_aborts_on_failure :
    Line.vincenty_length vdMixedInt
        (Line.new (Coordinate.mk (0 : ℤ) 0) (Coordinate.mk 1 0)) =
      Except.ok 1 ∧
    Line.vincenty_length vdMixedInt
        (Line.new (Coordinate.mk (1 : ℤ) 0) (Coordinate.mk 1 5)) =
      Except.error ⟨⟩ ∧
    LineString.vincenty_length vdMixedInt
        ⟨[Coordinate.mk (0 : ℤ) 0, Coordinate.mk 1 0, Coordinate.mk 1 5]⟩ =
      Except.error ⟨⟩ :=
  ⟨rfl, rfl, rfl⟩

/-- C2: for a `LineString` `[p0, ..., pn]` whose per-segment solver calls
all converge, `vincenty_length` is `Ok` of the sum of the per-segment
distances, accumulated from zero in segment order; if a segment fails, the
failure is returned.  The source line omits the `?` operator and is
ill-typed Rust, so the claim is checked against the intended early-return
semantics (see `LineString.vincenty_length`): on a 3-point path the two
segment distances are 12 and 40 and the path length is `Ok(52)`, while a
path with a failing segment returns the failure. -/
theorem lineString_vincenty_length_sums_segments :
    Line.vincenty_length vdOkInt
        (Line.new (Coordinate.mk (1 : ℤ) 2) (Coordinate.mk 3 4)) =
      Except.ok 12 ∧
    Line.vincenty_length vdOkInt
        (Line.new (Coordinate.mk (3 : ℤ) 4) (Coordinate.mk 5 6)) =
      Except.ok 40 ∧
    LineString.vincenty_length vdOkInt
        ⟨[Coordinate.mk (1 : ℤ) 2, Coordinate.mk 3 4, Coordinate.mk 5 6]⟩ =
      Except.ok (0 + 12 + 40) ∧
    LineString.vincenty_length vdFailInt
        ⟨[Coordinate.mk (1 : ℤ) 2, Coordinate.mk 3 4]⟩ =
      Except.error ⟨⟩ :=
  ⟨rfl, rfl, rfl, rfl⟩

/-- C3: for every `MultiLineString`, `vincenty_length` equals the sum of
the constituent `LineString`s' `vincenty_length` results when all of them
converge, and returns the convergence failure if any constituent fails.
(The failure marker `FailedToConvergeError` carries no payload, so every
failure value is equal; the path-order clause of the claim is therefore
exactly the short-circuiting captured here.)  Universally quantified over
the solver `vd`, so it holds for the real Vincenty solver in particular. -/
theorem multiLineString_vincenty_length_additive {α : Type} [AddCommMonoid α]
    [Inhabited α] (vd : Point α → Point α → Except FailedToConvergeError α)
    (paths : List (LineString α)) :
    (∀ ds : List α,
      List.Forall₂ (fun p d => LineString.vincenty_length vd p = Except.ok d)
        paths ds →
      MultiLineString.vincenty_length vd ⟨paths⟩ = Except.ok ds.sum) ∧
    (∀ p ∈ paths, LineString.vincenty_length vd p = Except.error ⟨⟩ →
      MultiLineString.vincenty_length vd ⟨paths⟩ = Except.error ⟨⟩) := by
  constructor
  · intro ds h
    have := mlAux_forall2 vd paths ds h 0
    simpa [MultiLineString.vincenty_length] using this
  · intro p hp hfail
    exact mlAux_error vd p hfail paths 0 hp

/-- Witness for C3 at concrete inputs: a one-path multipath over `ℤ` whose
single path converges to 12 sums to `Ok(12)`, and the same multipath under
an always-failing solver returns the failure. -/
theorem multiLineString_vincenty_length_additive_witness :
    List.Forall₂
        (fun p d => LineString.vincenty_length vdOkInt p = Except.ok d)
        [LineString.mk [Coordinate.mk 1 2, Coordinate.mk 3 4]] [(12 : ℤ)] ∧
    MultiLineString.vincenty_length vdOkInt
        ⟨[LineString.mk [Coordinate.mk 1 2, Coordinate.mk 3 4]]⟩ =
      Except.ok ([(12 : ℤ)].sum) ∧
    LineString.vincenty_length vdFailInt
        (LineString.mk [Coordinate.mk 1 2, Coordinate.mk 3 4]) =
      Except.error ⟨⟩ ∧
    MultiLineString.vincenty_length vdFailInt
        ⟨[LineString.mk [Coordinate.mk 1 2, Coordinate.mk 3 4]]⟩ =
      Except.error ⟨⟩ := by
  have hf : List.Forall₂
      (fun p d => LineString.vincenty_length vdOkInt p = Except.ok d)
      [LineString.mk [Coordinate.mk 1 2, Coordinate.mk 3 4]] [(12 : ℤ)] :=
    List.Forall₂.cons rfl List.Forall₂.nil
  have hfail : LineString.vincenty_length vdFailInt
      (LineString.mk [Coordinate.mk 1 2, Coordinate.mk 3 4]) =
      Except.error ⟨⟩ := rfl
  refine ⟨hf, ?_, hfail, ?_⟩
  · exact (multiLineString_vincenty_length_additive vdOkInt
      [LineString.mk [Coordinate.mk 1 2, Coordinate.mk 3 4]]).1 [(12 : ℤ)] hf
  · exact (multiLineString_vincenty_length_additive vdFailInt
      [LineString.mk [Coordinate.mk 1 2, Coordinate.mk 3 4]]).2
      (LineString.mk [Coordinate.mk 1 2, Coordinate.mk 3 4])
      (List.mem_singleton.mpr rfl) hfail

/-- C4: for every `LineString` of 0 or 1 points, `vincenty_length` returns
`Ok(0)` exactly and never a convergence failure: `lines()` yields no
segment, so the loop body (and hence the solver) is never invoked — the
result is `Ok(0)` for every solver `vd` whatsoever. -/
theorem lineString_vincenty_length_degenerate {α : Type} [Add α] [Zero α]
    [Inhabited α] (vd : Point α → Point α → Except FailedToConvergeError α)
    (ls : LineString α) (h : ls.coords.length ≤ 1) :
    LineString.vincenty_length vd ls = Except.ok 0 := by
  obtain ⟨l⟩ := ls
  rcases l with _ | ⟨a, _ | ⟨b, t⟩⟩
  · rfl
  · rfl
  · simp at h

/-- Witness for C4 at a concrete input: a 1-point path over `ℤ` evaluated
under the always-failing solver still returns `Ok(0)`. -/
theorem lineString_vincenty_length_degenerate_witness :
    (LineString.mk [Coordinate.mk (0 : ℤ) 0]).coords.length ≤ 1 ∧
    LineString.vincenty_length vdFailInt
        (LineString.mk [Coordinate.mk (0 : ℤ) 0]) = Except.ok 0 :=
  ⟨by decide,
    lineString_vincenty_length_degenerate vdFailInt
      (LineString.mk [Coordinate.mk (0 : ℤ) 0]) (by decide)⟩

/-- C5: for every `LineString` of N points, `lines()` yields exactly N-1
segments when N ≥ 2 (the length equation below, with truncated subtraction,
also gives 0 segments for N < 2), segment i being the pair of adjacent
coordinates i and i+1 in original order, and yields no segments when
N < 2; the sequence is a finite list, restartable because `lines` is a
pure function of the path's contents. -/
theorem lineString_lines_segments {α : Type} [Inhabited α]
    (l : List (Coordinate α)) :
    ((LineString.mk l).lines).length = l.length - 1 ∧
    (∀ (i : Nat) (a b : Coordinate α), l[i]? = some a → l[i + 1]? = some b →
      ((LineString.mk l).lines)[i]? = some (Line.new a b)) ∧
    (l.length < 2 → (LineString.mk l).lines = []) := by
  refine ⟨?_, ?_, ?_⟩
  · simp [LineString.lines, windows2_length]
  · intro i a b ha hb
    have hw := windows2_getElem l i a b ha hb
    simp only [LineString.lines]
    rw [List.getElem?_map, hw]
    rfl
  · intro h
    rcases l with _ | ⟨a, _ | ⟨b, t⟩⟩
    · rfl
    · rfl
    · simp only [List.length_cons] at h
      omega

/-- Witness for C5 at a concrete input: a 3-point path over `ℤ` yields
2 segments, and segment 0 joins coordinates 0 and 1. -/
theorem lineString_lines_segments_witness :
    ((LineString.mk
        [Coordinate.mk (0 : ℤ) 0, Coordinate.mk 1 1, Coordinate.mk 2 0]).lines).length
      = 2 ∧
    ((LineString.mk
        [Coordinate.mk (0 : ℤ) 0, Coordinate.mk 1 1, Coordinate.mk 2 0]).lines)[0]?
      = some (Line.new (Coordinate.mk 0 0) (Coordinate.mk 1 1)) :=
  ⟨(lineString_lines_segments
      [Coordinate.mk (0 : ℤ) 0, Coordinate.mk 1 1, Coordinate.mk 2 0]).1,
    (lineString_lines_segments
      [Coordinate.mk (0 : ℤ) 0, Coordinate.mk 1 1, Coordinate.mk 2 0]).2.1
      0 (Coordinate.mk 0 0) (Coordinate.mk 1 1) (by decide) (by decide)⟩

/-- C6: for every `LineString` — including those with fewer than 2 points —
every window produced by `windows(2)` inside `lines()` has length exactly
2, so the unchecked accesses `get_unchecked(0)` and `get_unchecked(1)` are
in bounds for all inputs, not only under the documented ≥ 2-point
precondition. -/
theorem lines_unchecked_indexing_in_bounds {α : Type} (ls : LineString α)
    (w : List (Coordinate α)) (h : w ∈ windows2 ls.coords) :
    w.length = 2 :=
  windows2_mem_length ls.coords w h

/-- Witness for C6 at a concrete input: the first window of a 3-point path
over `ℤ` has length 2. -/
theorem lines_unchecked_indexing_in_bounds_witness :
    ([Coordinate.mk (0 : ℤ) 0, Coordinate.mk 1 1] : List (Coordinate ℤ)).length = 2 :=
  lines_unchecked_indexing_in_bounds
    (LineString.mk [Coordinate.mk (0 : ℤ) 0, Coordinate.mk 1 1, Coordinate.mk 2 0])
    [Coordinate.mk (0 : ℤ) 0, Coordinate.mk 1 1] (by decide)

/-- C7 counterexample: the claim that slope changes sign under endpoint
swap fails at the concrete pair a = (0, 0), b = (1, 2) over `ℚ`: both
endpoint orders give slope 2, and 2 ≠ -2.  (The source's own doc test in
`line.rs` asserts `Line::new(a, b).slope() == Line::new(b, a).slope()`.) -/
theorem line_slope_swap_sign_counterexample :
    (Coordinate.mk (0 : ℚ) 0).x ≠ (Coordinate.mk (1 : ℚ) 2).x ∧
    (Line.new (Coordinate.mk (0 : ℚ) 0) (Coordinate.mk 1 2)).slope ≠
      -(Line.new (Coordinate.mk (1 : ℚ) 2) (Coordinate.mk 0 0)).slope := by
  constructor
  · simp
  · simp [Line.new, Line.slope, Line.dy, Line.dx]
    norm_num

/-- C7 amended: for coordinates a, b with a.x ≠ b.x, the slope of a line
segment is invariant under endpoint swap:
`Line::new(a, b).slope() == Line::new(b, a).slope()`. -/
theorem line_slope_swap_invariant {α : Type} [Field α] (a b : Coordinate α)
    (_h : a.x ≠ b.x) :
    (Line.new a b).slope = (Line.new b a).slope := by
  simp only [Line.new, Line.slope, Line.dy, Line.dx]
  rw [← neg_div_neg_eq (a.y - b.y) (a.x - b.x)]
  ring_nf

/-- Witness for the amended C7 at a concrete input: a = (0, 0), b = (1, 2)
over `ℚ` have distinct x components and equal slopes in both endpoint
orders. -/
theorem line_slope_swap_invariant_witness :
    (Coordinate.mk (0 : ℚ) 0).x ≠ (Coordinate.mk (1 : ℚ) 2).x ∧
    (Line.new (Coordinate.mk (0 : ℚ) 0) (Coordinate.mk 1 2)).slope =
      (Line.new (Coordinate.mk (1 : ℚ) 2) (Coordinate.mk 0 0)).slope :=
  ⟨by simp,
    line_slope_swap_invariant (Coordinate.mk (0 : ℚ) 0) (Coordinate.mk 1 2)
      (by simp)⟩

/-- C8: for every pair of coordinates a, b over a commutative ring, the
determinant of a line segment changes sign under endpoint swap:
`Line::new(a, b).determinant() == -Line::new(b, a).determinant()`. -/
theorem line_determinant_swap_antisymmetric {α : Type} [CommRing α]
    (a b : Coordinate α) :
    (Line.new a b).determinant = -(Line.new b a).determinant := by
  simp only [Line.new, Line.determinant]
  ring

/-- C9: for every `Line`, `vincenty_length` is exactly the result of
invoking the point-to-point solver on its two endpoints, start point
first and end point second, each endpoint reinterpreted as a `Point` —
for every solver `vd`. -/
theorem line_vincenty_length_is_solver_on_endpoints {α : Type}
    (vd : Point α → Point α → Except FailedToConvergeError α) (l : Line α) :
    Line.vincenty_length vd l = vd (Point.mk l.start) (Point.mk l.end_) :=
  rfl

/-- C10: constructing a `LineString` from a vector of coordinates —
directly, via `From<Vec<_>>`, or via `FromIterator` — and consuming it
with `into_iter` yields exactly the input elements (converted by the
`Into` conversion f, which is the identity on coordinates), in the same
order and count: construction and iteration add, drop, and reorder
nothing. -/
theorem lineString_construct_into_iter_roundtrip {α β : Type}
    (f : β → Coordinate α) (v : List β) (w : List (Coordinate α)) :
    (LineString.from_vec f v).into_iter = v.map f ∧
    (LineString.from_iter f v).into_iter = v.map f ∧
    (LineString.mk w).into_iter = w ∧
    (LineString.from_vec id w).into_iter = w ∧
    (LineString.from_iter id w).into_iter = w := by
  refine ⟨rfl, rfl, rfl, ?_, ?_⟩ <;>
    simp [LineString.from_vec, LineString.from_iter, LineString.into_iter]
